import Mathlib

/-!
Verification of the astral_ai request-normalization, capability-gating and
cost-accounting pipeline against a shallow Lean embedding of the Python
source (src/src/astral_ai).

Conventions of the embedding:
* Python runtime values flowing through the dynamically-typed parts of the
  code are modelled by the inductive `PValue`; Python `None` is `PValue.vNone`.
* Fallible Python code is modelled with `Except PyExc`; each relevant
  exception class of the source becomes one `PyExc` constructor.
* Python dicts are association lists with unique keys; `dict_lookup` is
  `d[k]`-style lookup returning `Option`.
* Machine integers do not occur (all counts are small naturals).
-/

/-- The Python exception classes that appear on the control paths under
verification.  `keyError`, `valueError`, `typeError` and
`unboundLocalError` are the built-ins; the remaining constructors embed the
exception classes declared in `astral_ai/agents/exceptions.py`. -/
inductive PyExc : Type
  | keyError (key : String)
  | valueError (msg : String)
  | typeError (msg : String)
  | unboundLocalError (name : String)
  | messagesNotProvidedError (model : String)
  | invalidMessageError (msg : String)
  | reasoningEffortNotSupportedError (model : String)
  | toolsNotSupportedError (model : String)
  | structuredOutputNotSupportedError (model : String)
  | llmResponseCompletionError (msg : String)
  | llmResponseParseError (msg : String)
  deriving DecidableEq, Repr

/-- The role field of a message (`system`/`developer`/`user`/`assistant`,
spec section 3). -/
inductive Role : Type
  | system
  | developer
  | user
  | assistant
  deriving DecidableEq, Repr

/-- A message object: a role plus its (opaque) content. -/
structure Message : Type where
  role : Role
  content : String
  deriving DecidableEq, Repr

/-- A tool object as seen by `_set_tools`, which only inspects
`hasattr(tool, "name")` and `hasattr(tool, "description")`.  A `none` field
models an absent attribute. -/
structure ToolObj : Type where
  name : Option String
  description : Option String
  deriving DecidableEq, Repr

/-- A dynamically-typed Python value.  `vMsg` and `vTool` embed the typed
objects that travel through the dynamically-typed parameter dictionaries;
`vStructured` stands for a pydantic `BaseModel` subclass instance used as a
structured-output schema. -/
inductive PValue : Type
  | vNone
  | vBool (b : Bool)
  | vStr (s : String)
  | vRat (q : Rat)
  | vList (l : List PValue)
  | vDict (d : List (String × PValue))
  | vMsg (m : Message)
  | vTool (t : ToolObj)
  | vStructured (tag : String)

/-- Python `x is None`. -/
def pyIsNone : PValue → Bool
  | .vNone => true
  | _ => false

/-- Python dict lookup `d.get(k)`: the value at the first matching key. -/
def dict_lookup {α : Type} : List (String × α) → String → Option α
  | [], _ => none
  | (k, v) :: rest, key => if k = key then some v else dict_lookup rest key

/-- Python truthiness (`if x:`) for the embedded values. -/
def pyTruthy : PValue → Bool
  | .vNone => false
  | .vBool b => b
  | .vStr s => decide (s ≠ "")
  | .vRat q => decide (q ≠ 0)
  | .vList l => !l.isEmpty
  | .vDict d => !d.isEmpty
  | .vMsg _ => true
  | .vTool _ => true
  | .vStructured _ => true

/-! ## The model table (`astral_ai/typing/models.py`)

`MODEL_DEFINITIONS` is a dict from alias to a per-alias definition dict
with keys `provider`, `model_ids`, `pricing`, `most_recent_model`,
transcribed literally. -/

/-- `MODEL_DEFINITIONS` from `astral_ai/typing/models.py`. -/
def MODEL_DEFINITIONS : List (String × List (String × PValue)) :=
  [ ("claude-3-5-sonnet",
      [ ("provider", .vStr "anthropic"),
        ("model_ids", .vList [.vStr "claude-3-5-sonnet-20241022"]),
        ("pricing", .vDict [("prompt_tokens", .vRat 0), ("cached_prompt_tokens", .vRat 0),
                            ("output_tokens", .vRat 0), ("per_million", .vRat 1000000)]),
        ("most_recent_model", .vStr "claude-3-5-sonnet-20241022") ]),
    ("claude-3-haiku",
      [ ("provider", .vStr "anthropic"),
        ("model_ids", .vList [.vStr "claude-3-5-haiku-20241022"]),
        ("pricing", .vDict [("prompt_tokens", .vRat 0), ("cached_prompt_tokens", .vRat 0),
                            ("output_tokens", .vRat 0), ("per_million", .vRat 1000000)]),
        ("most_recent_model", .vStr "claude-3-5-haiku-20241022") ]),
    ("claude-3-opus",
      [ ("provider", .vStr "anthropic"),
        ("model_ids", .vList [.vStr "claude-3-opus-20240229"]),
        ("pricing", .vDict [("prompt_tokens", .vRat 0), ("cached_prompt_tokens", .vRat 0),
                            ("output_tokens", .vRat 0), ("per_million", .vRat 1000000)]),
        ("most_recent_model", .vStr "claude-3-opus-20240229") ]),
    ("gpt-4o",
      [ ("provider", .vStr "openai"),
        ("model_ids", .vList [.vStr "gpt-4o-01-15-24", .vStr "gpt-4o-12-17-24", .vStr "gpt-4o-01-10-24"]),
        ("pricing", .vDict [("prompt_tokens", .vRat 2.5), ("cached_prompt_tokens", .vRat 1.25),
                            ("output_tokens", .vRat 10), ("per_million", .vRat 1000000)]),
        ("most_recent_model", .vStr "gpt-4o-12-17-24") ]),
    ("o1",
      [ ("provider", .vStr "openai"),
        ("model_ids", .vList [.vStr "o1-01-15-24", .vStr "o1-12-17-24", .vStr "o1-01-10-24"]),
        ("pricing", .vDict [("prompt_tokens", .vRat 15), ("cached_prompt_tokens", .vRat 7.5),
                            ("output_tokens", .vRat 60), ("per_million", .vRat 1000000)]),
        ("most_recent_model", .vStr "o1-12-17-24") ]),
    ("o1-mini",
      [ ("provider", .vStr "openai"),
        ("model_ids", .vList [.vStr "o1-mini-01-15-24", .vStr "o1-mini-12-17-24", .vStr "o1-mini-01-10-24"]),
        ("pricing", .vDict [("prompt_tokens", .vRat 3), ("cached_prompt_tokens", .vRat 1.5),
                            ("output_tokens", .vRat 12), ("per_million", .vRat 1000000)]),
        ("most_recent_model", .vStr "o1-mini-12-17-24") ]),
    ("o3-mini",
      [ ("provider", .vStr "openai"),
        ("model_ids", .vList [.vStr "o3-mini-2025-01-31"]),
        ("pricing", .vDict [("prompt_tokens", .vRat 0), ("cached_prompt_tokens", .vRat 0),
                            ("output_tokens", .vRat 0), ("per_million", .vRat 1000000)]),
        ("most_recent_model", .vStr "o3-mini-2025-01-31") ]) ]

/-! ## `astral_ai/utils/model_mapping.py` -/

/-- Python `int(s)` restricted to the forms that occur in model ids: a
non-empty run of ASCII digits (the parts fed to `int` come from
`split("-")`, so a sign cannot occur; leading whitespace and underscore
separators, which Python would also accept, do not occur in any model id
and are not modelled).  Implemented over `List Char` so that the kernel
can evaluate it. -/
def pyInt? (s : String) : Option Nat :=
  if s.data ≠ [] ∧ s.data.all Char.isDigit then
    some (s.data.foldl (fun n c => n * 10 + (c.toNat - 48)) 0)
  else none

/-- Python `s.split(sep)` for a single-character separator, on character
lists: `"".split("-") == [""]` and empty fields are kept, exactly as in
Python. -/
def split_on_char : List Char → Char → List (List Char)
  | [], _ => [[]]
  | c :: rest, sep =>
    let r := split_on_char rest sep
    if c = sep then [] :: r
    else
      match r with
      | h :: t => (c :: h) :: t
      | [] => [[c]]

/-- `extract_date` from `model_mapping.py`: parse `(year, month, day)` out
of a versioned model id, returning `(0, 0, 0)` when the suffix matches
neither accepted format.  String slicing, `lstrip` and `split` are by
code point, modelled on the underlying character list. -/
def extract_date (model al : String) : Nat × Nat × Nat :=
  -- rest = model[len(alias):].lstrip("-")
  let rest := (model.data.drop al.data.length).dropWhile (fun c => c = '-')
  let parts := (split_on_char rest '-').map String.mk
  if parts.length = 3 then
    match pyInt? (parts.getD 0 ""), pyInt? (parts.getD 1 ""), pyInt? (parts.getD 2 "") with
    | some month, some day, some year =>
        (if year < 100 then year + 2000 else year, month, day)
    | _, _, _ => (0, 0, 0)
  else if parts.length = 1 ∧ (parts.getD 0 "").data.length = 8 then
    let full_date := (parts.getD 0 "").data
    match pyInt? (String.mk (full_date.take 4)), pyInt? (String.mk ((full_date.drop 4).take 2)),
        pyInt? (String.mk (full_date.drop 6)) with
    | some year, some month, some day => (year, month, day)
    | _, _, _ => (0, 0, 0)
  else (0, 0, 0)

/-- Python `inp in definition["model_names"]` membership test: compare
`inp` with the string elements of a Python list. -/
def py_str_list_mem (ids : List PValue) (s : String) : Bool :=
  ids.any (fun v => match v with | .vStr t => t = s | _ => false)

/-- The `for alias, definition in MODEL_DEFINITIONS.items()` loop of
`resolve_model_name`.  Each iteration evaluates `definition["model_names"]`
first; since the table keys this entry `"model_ids"`, that dict access
raises `KeyError("model_names")` on the very first iteration.  The
remaining arms embed what the loop would do were the key present. -/
def resolve_loop (inp : String) : List (String × List (String × PValue)) → Except PyExc String
  | [] => .error (.valueError ("Model " ++ inp ++ " not found in available models."))
  | (_, defn) :: rest =>
    match dict_lookup defn "model_names" with
    | none => .error (.keyError "model_names")
    | some (.vList ids) =>
        if py_str_list_mem ids inp then .ok inp else resolve_loop inp rest
    | some _ => .error (.typeError "argument of type is not iterable")

/-- `resolve_model_name` from `model_mapping.py`: the alias branch returns
`MODEL_DEFINITIONS[inp]["most_recent_model"]`; otherwise the loop over the
definitions runs (and, on the current table, raises `KeyError`). -/
def resolve_model_name (inp : String) : Except PyExc String :=
  match dict_lookup MODEL_DEFINITIONS inp with
  | some defn =>
      (match dict_lookup defn "most_recent_model" with
       | some (.vStr m) => .ok m
       | some _ => .error (.typeError "most_recent_model is not a string")
       | none => .error (.keyError "most_recent_model"))
  | none => resolve_loop inp MODEL_DEFINITIONS

/-- The versioned-id list of an alias, projected out of the table
(`model_ids` entry). -/
def alias_model_ids (al : String) : List String :=
  match dict_lookup MODEL_DEFINITIONS al with
  | some defn =>
      (match dict_lookup defn "model_ids" with
       | some (.vList ids) => ids.filterMap (fun v => match v with | .vStr s => some s | _ => none)
       | _ => [])
  | none => []

/-- The `most_recent_model` entry of an alias. -/
def alias_most_recent (al : String) : String :=
  match dict_lookup MODEL_DEFINITIONS al with
  | some defn =>
      (match dict_lookup defn "most_recent_model" with
       | some (.vStr m) => m
       | _ => "")
  | none => ""

/-- Decidable equality for `Except`, needed to settle concrete runs of the
embedded fallible functions by `decide`. -/
instance exceptDecEq {ε α : Type} [DecidableEq ε] [DecidableEq α] :
    DecidableEq (Except ε α) := fun a b =>
  match a, b with
  | .ok x, .ok y =>
      if h : x = y then .isTrue (by rw [h]) else .isFalse (by simp [h])
  | .ok _, .error _ => .isFalse (by simp)
  | .error _, .ok _ => .isFalse (by simp)
  | .error x, .error y =>
      if h : x = y then .isTrue (by rw [h]) else .isFalse (by simp [h])

/-- Lexicographic order on extracted `(year, month, day)` tuples, the order
under which the most recent versioned id is the maximum. -/
def date_le (a b : Nat × Nat × Nat) : Bool :=
  decide (a.1 < b.1) ||
    (decide (a.1 = b.1) &&
      (decide (a.2.1 < b.2.1) ||
        (decide (a.2.1 = b.2.1) && decide (a.2.2 ≤ b.2.2))))

/-! ## Supported-model constants (`astral_ai/constants/supported_models.py`) -/

/-- `REASONING_EFFORT_SUPPORTED_MODELS`. -/
def REASONING_EFFORT_SUPPORTED_MODELS : List String :=
  ["o1", "o1-01-10-24", "o1-01-15-24", "o1-12-17-24", "o3-mini", "o3-mini-2025-01-31"]

/-- `STRUCTURED_OUTPUT_SUPPORTED_MODELS`. -/
def STRUCTURED_OUTPUT_SUPPORTED_MODELS : List String :=
  ["claude-3-5-haiku-20241022", "claude-3-5-sonnet", "claude-3-5-sonnet-20241022",
   "claude-3-haiku", "claude-3-opus", "claude-3-opus-20240229",
   "gpt-4o", "gpt-4o-01-10-24", "gpt-4o-01-15-24", "gpt-4o-12-17-24",
   "o1", "o1-01-10-24", "o1-01-15-24", "o1-12-17-24",
   "o1-mini", "o1-mini-01-10-24", "o1-mini-01-15-24", "o1-mini-12-17-24",
   "o3-mini", "o3-mini-2025-01-31"]

/-- `FUNCTION_CALL_SUPPORTED_MODELS`. -/
def FUNCTION_CALL_SUPPORTED_MODELS : List String :=
  ["claude-3-5-haiku-20241022", "claude-3-5-sonnet", "claude-3-5-sonnet-20241022",
   "claude-3-haiku", "claude-3-opus", "claude-3-opus-20240229",
   "gpt-4o", "gpt-4o-01-10-24", "gpt-4o-01-15-24", "gpt-4o-12-17-24",
   "o1", "o1-01-10-24", "o1-01-15-24", "o1-12-17-24",
   "o1-mini", "o1-mini-01-10-24", "o1-mini-01-15-24", "o1-mini-12-17-24",
   "o3-mini", "o3-mini-2025-01-31"]

/-- `SYSTEM_MESSAGE_SUPPORTED_MODELS`. -/
def SYSTEM_MESSAGE_SUPPORTED_MODELS : List String :=
  ["claude-3-5-sonnet", "claude-3-5-sonnet-20241022", "claude-3-opus",
   "claude-3-opus-20240229", "gpt-4o", "gpt-4o-01-10-24", "gpt-4o-01-15-24",
   "gpt-4o-12-17-24"]

/-- `DEVELOPER_MESSAGE_SUPPORTED_MODELS`. -/
def DEVELOPER_MESSAGE_SUPPORTED_MODELS : List String :=
  ["o1", "o1-01-10-24", "o1-01-15-24", "o1-12-17-24", "o3-mini", "o3-mini-2025-01-31"]

/-- `ONLY_USER_MESSAGE_SUPPORTED_MODELS`. -/
def ONLY_USER_MESSAGE_SUPPORTED_MODELS : List String :=
  ["claude-3-5-haiku-20241022", "claude-3-haiku", "o1-mini",
   "o1-mini-01-10-24", "o1-mini-01-15-24", "o1-mini-12-17-24"]

/-! ## Message normalizer (`BaseLLMClient._set_messages`, providers/base.py)

The four helpers `handle_no_messages`, `standardize_messages`,
`count_message_roles` and `convert_message_roles` are imported by
`providers/base.py` from `astral_ai.clients.utils`, a module whose source
is not in the repository snapshot; they are modelled from the spec
(sections 4.2 and 8). -/

/-- Modelled from the spec: `handle_no_messages` backs the rule
"Empty/absent input: must raise `NoMessagesProvidedError` naming the model
- never silently proceeds with an empty conversation" (the repository
snapshot has the exception class but not this helper). -/
def handle_no_messages (model_name : String) (_init_call : Bool) :
    Except PyExc (List Message) :=
  .error (.messagesNotProvidedError model_name)

/-- Modelled from the spec: `standardize_messages` implements "Non-list
single-message input is coerced into a one-element ordered sequence before
further processing"; a list input is used as is.  Elements of a list are
expected to be message objects. -/
def standardize_messages (messages : PValue) : List Message :=
  match messages with
  | .vMsg m => [m]
  | .vList l => l.filterMap (fun v => match v with | .vMsg m => some m | _ => none)
  | _ => []

/-- Modelled from the spec: `count_message_roles` implements "Count
system-role and developer-role messages across the sequence", returning
the pair `(system_count, developer_count)`. -/
def count_message_roles (msgs : List Message) : Nat × Nat :=
  (msgs.countP (fun m => m.role = Role.system),
   msgs.countP (fun m => m.role = Role.developer))

/-- Modelled from the spec: `convert_message_roles` rewrites the role of
the instruction (system- or developer-role) message to the target role,
leaving every other message, the order and the count unchanged ("it only
changes the `role` field of the single instruction message"); the model
name argument is used by the source only for logging. -/
def convert_message_roles (msgs : List Message) (target : Role) (_model_name : String) :
    List Message :=
  msgs.map (fun m =>
    if m.role = Role.system ∨ m.role = Role.developer then { m with role := target } else m)

/-- `BaseLLMClient._set_messages` (providers/base.py, lines 216-268):
empty-input handling, instruction-role cardinality validation, then role
remapping against the three messaging-style model lists. -/
def set_messages (model_name : String) (messages : PValue) (init_call : Bool) :
    Except PyExc (List Message) :=
  -- if not messages: return handle_no_messages(model_name, init_call=init_call)
  if ¬ pyTruthy messages then handle_no_messages model_name init_call
  else
    let msgs := standardize_messages messages
    let counts := count_message_roles msgs
    let system_count := counts.1
    let developer_count := counts.2
    if system_count > 1 then
      .error (.invalidMessageError "Invalid message role provided. More than one system message provided.")
    else if developer_count > 1 then
      .error (.invalidMessageError "Invalid message role provided. More than one developer message provided.")
    else if system_count ≥ 1 ∧ developer_count ≥ 1 then
      .error (.invalidMessageError "Invalid message role provided. Both system and developer messages provided.")
    else if system_count > 0 then
      if model_name ∈ DEVELOPER_MESSAGE_SUPPORTED_MODELS then
        .ok (convert_message_roles msgs Role.developer model_name)
      else if model_name ∈ ONLY_USER_MESSAGE_SUPPORTED_MODELS then
        .ok (convert_message_roles msgs Role.user model_name)
      else .ok msgs
    else if developer_count > 0 then
      if model_name ∈ SYSTEM_MESSAGE_SUPPORTED_MODELS then
        .ok (convert_message_roles msgs Role.system model_name)
      else if model_name ∈ ONLY_USER_MESSAGE_SUPPORTED_MODELS then
        .ok (convert_message_roles msgs Role.user model_name)
      else .ok msgs
    else .ok msgs

/-! ## Capability gate (providers/base.py) -/

/-- `hasattr(tool, attr)` for the two attributes `_set_tools` inspects.
Only tool objects expose them; any other Python value lacks both. -/
def has_attr (v : PValue) (attr : String) : Bool :=
  match v with
  | .vTool t =>
      if attr = "name" then t.name.isSome
      else if attr = "description" then t.description.isSome
      else false
  | _ => false

/-- `BaseLLMClient._set_tools` (providers/base.py, lines 292-328): `None`
passes through; the model-capability membership check runs first; then the
list-shape check; then each tool must expose `name` and `description`
(the source interpolates the offending tool into the message; the repr is
not modelled). -/
def set_tools (tools : PValue) (model_name : String) : Except PyExc PValue :=
  if pyIsNone tools then .ok PValue.vNone
  else if model_name ∉ FUNCTION_CALL_SUPPORTED_MODELS then
    .error (.toolsNotSupportedError model_name)
  else
    match tools with
    | .vList ts =>
        if ts.any (fun t => ¬ has_attr t "name" ∨ ¬ has_attr t "description") then
          .error (.valueError "Tool missing required attributes name and description")
        else .ok (PValue.vList ts)
    | _ => .error (.valueError "Tools must be provided as a list")

/-- `BaseLLMClient._set_tool_choice` (providers/base.py, lines 330-353):
`None` when no tools are present (discarding an explicit choice), `"auto"`
when tools exist and no choice was given, else the given choice. -/
def set_tool_choice (tool_choice tools : PValue) : PValue :=
  if pyIsNone tools then PValue.vNone
  else if pyIsNone tool_choice then PValue.vStr "auto"
  else tool_choice

/-- `BaseLLMClient._set_reasoning_effort` (providers/base.py, lines
270-290): `None` passes through; otherwise the model must be in the
reasoning-effort list. -/
def set_reasoning_effort (reasoning_effort : PValue) (model_name : String) :
    Except PyExc PValue :=
  if pyIsNone reasoning_effort then .ok PValue.vNone
  else if model_name ∉ REASONING_EFFORT_SUPPORTED_MODELS then
    .error (.reasoningEffortNotSupportedError model_name)
  else .ok reasoning_effort

/-- `BaseLLMClient._validate_structured_model` (providers/base.py, lines
355-375): `None` passes through; the model must support structured output
and the schema must be a pydantic `BaseModel` instance. -/
def validate_structured_model (structured_model : PValue) (model_name : String) :
    Except PyExc PValue :=
  if pyIsNone structured_model then .ok PValue.vNone
  else if model_name ∉ STRUCTURED_OUTPUT_SUPPORTED_MODELS then
    .error (.structuredOutputNotSupportedError model_name)
  else
    match structured_model with
    | .vStructured t => .ok (PValue.vStructured t)
    | _ => .error (.valueError "Structured model must be a subclass of BaseModel.")

/-! ## Parameter merger (`BaseLLMClient._merge_parameters`, providers/base.py)

`_merge_parameters` iterates over `BaseLLMCallParams.model_fields` (the
declared pydantic fields, in declaration order), computes one effective
value per field, then appends every runtime key not already present, and
finally builds `BaseLLMCallParams(**merged)`.  The client-held defaults it
reads are modelled by `ClientState`. -/

/-- The mutable attributes of a `BaseLLMClient` instance that the claims
mention: the stored call-parameter defaults, the transport-mode flag
`use_async`, and the transport handle (`self.client`), which carries its
mode as its only observable property. -/
structure ClientState : Type where
  model_name : String
  messages : PValue
  reasoning_effort : PValue
  tools : PValue
  tool_choice : PValue
  user : PValue
  use_async : Bool
  client : Bool

/-- The keys of `BaseLLMCallParams.model_fields` (clients/types.py, lines
81-91), in declaration order. -/
def base_call_param_fields : List String :=
  ["messages", "model", "user", "tools", "tool_choice", "reasoning_effort", "structured_model"]

/-- The per-field default drawn from client state inside
`_merge_parameters`: `model`, `tools`, `tool_choice`, `reasoning_effort`
and `user` come from the corresponding attributes, `structured_model` is
always `None` ("must be provided in each call"), and any other field -
in particular `messages` - defaults to `None`. -/
def default_param_value (st : ClientState) (field : String) : PValue :=
  if field = "model" then .vStr st.model_name
  else if field = "tools" then st.tools
  else if field = "tool_choice" then st.tool_choice
  else if field = "reasoning_effort" then st.reasoning_effort
  else if field = "user" then st.user
  else if field = "structured_model" then .vNone
  else .vNone

/-- `merge_flags.get(field, False)` followed by the truthiness test of
`if merge_flag and ...`: the flag dict is a Python value; a missing key or
a non-dict flags value reads as `False`. -/
def merge_flag_for (merge_flags : PValue) (field : String) : Bool :=
  match merge_flags with
  | .vDict d => pyTruthy ((dict_lookup d field).getD (.vBool false))
  | _ => false

/-- `default_value.copy()` followed by `.update(runtime_value)` on dicts
with unique keys: keys of the default keep their position and take the
override value when present; override-only keys are appended in override
order. -/
def py_dict_update (a b : List (String × PValue)) : List (String × PValue) :=
  a.map (fun kv => (kv.1, (dict_lookup b kv.1).getD kv.2)) ++
    b.filter (fun kv => (dict_lookup a kv.1).isNone)

/-- The per-field body of the `_merge_parameters` loop (providers/base.py,
lines 460-473). -/
def merge_field_value (default_value runtime_value : PValue) (merge_flag : Bool) : PValue :=
  if merge_flag ∧ ¬ pyIsNone default_value ∧ ¬ pyIsNone runtime_value then
    match default_value, runtime_value with
    | .vList a, .vList b => .vList (a ++ b)
    | .vDict a, .vDict b => .vDict (py_dict_update a b)
    | _, _ => runtime_value
  else if ¬ pyIsNone runtime_value then runtime_value else default_value

/-- The `for key, value in runtime.items(): if key not in merged` loop
that appends runtime-only keys to the merged dict. -/
def pass_through (merged : List (String × PValue)) :
    List (String × PValue) → List (String × PValue)
  | [] => merged
  | (k, v) :: rest =>
      if (dict_lookup merged k).isSome then pass_through merged rest
      else pass_through (merged ++ [(k, v)]) rest

/-- `BaseLLMClient._merge_parameters` (providers/base.py, lines 420-482) up
to the `merged` dict it assembles: one effective value per declared field,
then unrecognized runtime keys appended. -/
def merge_parameters (st : ClientState) (runtime : List (String × PValue))
    (merge_flags : PValue) : List (String × PValue) :=
  let mergedFields := base_call_param_fields.map (fun field =>
    (field, merge_field_value (default_param_value st field)
                              ((dict_lookup runtime field).getD .vNone)
                              (merge_flag_for merge_flags field)))
  pass_through mergedFields runtime

/-- The final `BaseLLMCallParams(**merged)` of `_merge_parameters`: the
pydantic model is built from the declared fields only - with its default
configuration pydantic ignores unexpected keyword arguments - so every
unrecognized key of `merged` is dropped here.  Field-value validation and
coercion are not modelled. -/
def mk_base_llm_call_params (merged : List (String × PValue)) :
    List (String × PValue) :=
  base_call_param_fields.map (fun f => (f, (dict_lookup merged f).getD .vNone))

/-- The effective-value rule exactly as the spec states it (section 4.4):
if the field's merge flag is true AND both default and override are
present AND are the same container kind, structurally combine (sequence
concatenation; mapping union with override precedence); otherwise the
runtime override if present, else the client default, else absent. -/
def merge_spec_value (dflt rt : PValue) (flag : Bool) : PValue :=
  if flag ∧ ¬ pyIsNone dflt ∧ ¬ pyIsNone rt then
    match dflt, rt with
    | .vList a, .vList b => .vList (a ++ b)
    | .vDict a, .vDict b => .vDict (py_dict_update a b)
    | _, _ => if ¬ pyIsNone rt then rt else dflt
  else if ¬ pyIsNone rt then rt else dflt

/-! ## Dispatcher (`OpenAILLMClient`, providers/openai.py)

The provider transport (`self.client.chat.completions.create` /
`self.client.beta.chat.completions.parse`) is an external collaborator; a
call's transport outcome is a parameter: either a raised exception
(carried as its message string) or a raw response object. -/

/-- The token-count block of a raw OpenAI response
(`response.usage`, with `prompt_tokens_details.cached_tokens`). -/
structure UsageBlock : Type where
  prompt_tokens : Nat
  cached_tokens : Nat
  completion_tokens : Nat
  total_tokens : Nat
  deriving DecidableEq, Repr

/-- The message slot of one completion choice: `content` for plain calls,
`parsed` for structured calls.  `none` models an absent/None attribute. -/
structure ChoiceMessage : Type where
  content : Option String
  parsed : Option String
  deriving DecidableEq, Repr

/-- One completion choice. -/
structure Choice : Type where
  message : ChoiceMessage
  deriving DecidableEq, Repr

/-- A raw provider response (`ChatCompletion` / `ParsedChatCompletion`). -/
structure RawResponse : Type where
  choices : List Choice
  usage : UsageBlock
  deriving DecidableEq, Repr

/-- Python falsiness of `getattr(message, "content", None)`: absent/None
or the empty string. -/
def content_falsy (c : Option String) : Bool :=
  match c with
  | none => true
  | some s => s = ""

/-- The transport call and response validation of
`OpenAILLMClient._call_api_sync` (providers/openai.py, lines 179-194).  A
transport exception is wrapped into `LLMResponseCompletionError`.  On the
no-choices and empty-content paths the source raises
`LLMResponseCompletionError(f"...: {e}")`, but `e` is the `except`-clause
variable and is unbound outside the handler, so evaluating the f-string
argument raises `UnboundLocalError` for `e` instead. -/
def call_api_sync_validate (transport : Except String RawResponse) :
    Except PyExc RawResponse :=
  match transport with
  | .error e =>
      .error (.llmResponseCompletionError
        ("Error during OpenAI API synchronous call: " ++ e))
  | .ok response =>
      match response.choices with
      | [] => .error (.unboundLocalError "e")
      | c :: _ =>
          if content_falsy c.message.content then .error (.unboundLocalError "e")
          else .ok response

/-- The transport call and response validation of
`OpenAILLMClient._call_api_async` (providers/openai.py, lines 212-227);
here the error messages do not interpolate `e`, so the intended
`LLMResponseCompletionError` values are raised. -/
def call_api_async_validate (transport : Except String RawResponse) :
    Except PyExc RawResponse :=
  match transport with
  | .error _ =>
      .error (.llmResponseCompletionError "Error during OpenAI API asynchronous call")
  | .ok response =>
      match response.choices with
      | [] => .error (.llmResponseCompletionError "LLM returned no choices in async response")
      | c :: _ =>
          if content_falsy c.message.content then
            .error (.llmResponseCompletionError "LLM returned no valid async response")
          else .ok response

/-- The transport call and response validation of
`OpenAILLMClient._call_api_structured` (providers/openai.py, lines
246-261): a transport exception wraps into `LLMResponseCompletionError`;
a no-choices or unparsed response raises `LLMResponseParseError`.  A
parsed pydantic object is always truthy, so `not getattr(message,
"parsed", None)` is exactly absence. -/
def call_api_structured_validate (transport : Except String RawResponse) :
    Except PyExc RawResponse :=
  match transport with
  | .error _ =>
      .error (.llmResponseCompletionError "Error during OpenAI structured synchronous call")
  | .ok response =>
      match response.choices with
      | [] => .error (.llmResponseParseError "LLM returned no choices in structured response")
      | c :: _ =>
          if c.message.parsed.isNone then
            .error (.llmResponseParseError "LLM returned no valid structured response")
          else .ok response

/-- The transport call and response validation of
`OpenAILLMClient._call_api_structured_async` (providers/openai.py, lines
278-293); identical to the structured sync path. -/
def call_api_structured_async_validate (transport : Except String RawResponse) :
    Except PyExc RawResponse :=
  match transport with
  | .error _ =>
      .error (.llmResponseCompletionError "Error during OpenAI structured asynchronous call")
  | .ok response =>
      match response.choices with
      | [] => .error (.llmResponseParseError "LLM returned no choices in structured response")
      | c :: _ =>
          if c.message.parsed.isNone then
            .error (.llmResponseParseError "LLM returned no valid structured response")
          else .ok response

/-! ## Usage and cost accountant (`clients/decorators/usage.py`) -/

/-- `AIUsage`: token counts plus measured latency (time is carried as an
abstract tick count). -/
structure AIUsage : Type where
  prompt_tokens : Nat
  cached_prompt_tokens : Nat
  completion_tokens : Nat
  total_tokens : Nat
  latency : Nat
  deriving DecidableEq, Repr

/-- `AICost` as the claims see it: an opaque computed cost record. -/
structure AICost : Type where
  total_cost : Rat
  deriving DecidableEq, Repr

/-- The `AIUsage(...)` construction appearing twice in `process_response`:
token counts from the raw response plus the measured latency. -/
def usage_from_response (response : RawResponse) (latency : Nat) : AIUsage :=
  { prompt_tokens := response.usage.prompt_tokens,
    cached_prompt_tokens := response.usage.cached_tokens,
    completion_tokens := response.usage.completion_tokens,
    total_tokens := response.usage.total_tokens,
    latency := latency }

/-- `process_response` from `calculate_cost_and_usage`
(clients/decorators/usage.py, lines 42-84).  `track_model_cost` is
imported from a module absent from the repository snapshot, so the cost
computation is a parameter `costFn`; a pydantic `AIUsage` instance is
always truthy, so `usage or AIUsage(...)` falls back exactly when
`ret_usage` was false. -/
def process_response (costFn : String → AIUsage → AICost) (response : RawResponse)
    (latency : Nat) (model_name : String) (ret_usage ret_cost : Bool) :
    RawResponse × Option AIUsage × Option AICost :=
  if ¬ (ret_usage || ret_cost) then (response, none, none)
  else
    let usage := if ret_usage then some (usage_from_response response latency) else none
    let cost :=
      if ret_cost then
        some (costFn model_name (usage.getD (usage_from_response response latency)))
      else none
    (response, usage, cost)

/-! ## The public call methods (`run` and friends, providers/base.py)

Each `run*` method: `_validate_client`, copy the kwargs, insert
`messages`, pop `__merge__`, `_merge_parameters`, then the decorated
`_call_api_*`.  The decorated call runs `_prepare_params_for_provider`
(which is `_validate_and_unpack_parameters` followed by the provider
shaping) and then transport plus response validation plus
`process_response`.  The transport outcome is a function of the held
client handle and the shaped parameters. -/

/-- `BaseLLMClient._validate_client` (providers/base.py, lines 190-211):
reinitialize the held client when the requested mode differs from the
stored `use_async` flag; only `self.client` and `self.use_async` are
assigned. -/
def validate_client (st : ClientState) (use_async : Bool) (initClient : Bool → Bool) :
    ClientState :=
  if use_async ∧ ¬ st.use_async then
    { st with client := initClient true, use_async := true }
  else if ¬ use_async ∧ st.use_async then
    { st with client := initClient false, use_async := false }
  else st

/-- `BaseLLMClient._validate_and_unpack_parameters` (providers/base.py,
lines 381-411): unpack the merged parameters and run the five validators
in the evaluation order of the `ValidatedBaseLLMCallParams(...)` keyword
arguments. -/
def validate_and_unpack_parameters (params : List (String × PValue))
    (structured_model : PValue) : Except PyExc (List (String × PValue)) := do
  let model := match (dict_lookup params "model").getD .vNone with
    | .vStr s => s
    | _ => ""
  let msgs ← set_messages model ((dict_lookup params "messages").getD .vNone) false
  let tools ← set_tools ((dict_lookup params "tools").getD .vNone) model
  let tc := set_tool_choice ((dict_lookup params "tool_choice").getD .vNone)
              ((dict_lookup params "tools").getD .vNone)
  let re ← set_reasoning_effort ((dict_lookup params "reasoning_effort").getD .vNone) model
  let sm ← validate_structured_model structured_model model
  pure [("model", .vStr model),
        ("messages", .vList (msgs.map PValue.vMsg)),
        ("user", (dict_lookup params "user").getD .vNone),
        ("tools", tools),
        ("tool_choice", tc),
        ("reasoning_effort", re),
        ("structured_model", sm)]

/-- Modelled from the spec: `to_openai_format` lives in
`astral_ai.clients.provider_params`, a module absent from the repository
snapshot.  Per spec section 4.5 SHAPING it converts the validated
parameters into the provider request shape (field renames and
content-block wrapping); since no claim depends on the provider-specific
shape, the conversion is modelled as the identity on the parameter
record. -/
def to_openai_format (validated : List (String × PValue)) : List (String × PValue) :=
  validated

/-- `OpenAILLMClient._prepare_params_for_provider` (providers/openai.py,
lines 143-153). -/
def prepare_params_for_provider (params : List (String × PValue))
    (structured_model : PValue) : Except PyExc (List (String × PValue)) := do
  let validated ← validate_and_unpack_parameters params structured_model
  pure (to_openai_format validated)

/-- The decorated `_call_api_sync` as invoked by `run`: prepare the
provider parameters, perform the transport call (its outcome given by
`transport` as a function of the held client handle and the shaped
request), validate the response, then `process_response` from the usage
decorator.  `model_name` is always passed as a keyword by `run`, so the
decorator's missing-kwarg guard cannot fire. -/
def call_api_sync (st : ClientState) (model_name : String)
    (params : List (String × PValue))
    (transport : Bool → List (String × PValue) → Except String RawResponse)
    (costFn : String → AIUsage → AICost) (latency : Nat)
    (ret_usage ret_cost : Bool) :
    Except PyExc (RawResponse × Option AIUsage × Option AICost) := do
  let openai_params ← prepare_params_for_provider params .vNone
  let response ← call_api_sync_validate (transport st.client openai_params)
  pure (process_response costFn response latency model_name ret_usage ret_cost)

/-- The decorated `_call_api_async` as invoked by `run_async`. -/
def call_api_async (st : ClientState) (model_name : String)
    (params : List (String × PValue))
    (transport : Bool → List (String × PValue) → Except String RawResponse)
    (costFn : String → AIUsage → AICost) (latency : Nat)
    (ret_usage ret_cost : Bool) :
    Except PyExc (RawResponse × Option AIUsage × Option AICost) := do
  let openai_params ← prepare_params_for_provider params .vNone
  let response ← call_api_async_validate (transport st.client openai_params)
  pure (process_response costFn response latency model_name ret_usage ret_cost)

/-- The decorated `_call_api_structured` as invoked by `run_structured`. -/
def call_api_structured (st : ClientState) (model_name : String)
    (structured_model : PValue) (params : List (String × PValue))
    (transport : Bool → List (String × PValue) → Except String RawResponse)
    (costFn : String → AIUsage → AICost) (latency : Nat)
    (ret_usage ret_cost : Bool) :
    Except PyExc (RawResponse × Option AIUsage × Option AICost) := do
  let openai_params ← prepare_params_for_provider params structured_model
  let response ← call_api_structured_validate (transport st.client openai_params)
  pure (process_response costFn response latency model_name ret_usage ret_cost)

/-- The decorated `_call_api_structured_async` as invoked by
`run_structured_async`. -/
def call_api_structured_async (st : ClientState) (model_name : String)
    (structured_model : PValue) (params : List (String × PValue))
    (transport : Bool → List (String × PValue) → Except String RawResponse)
    (costFn : String → AIUsage → AICost) (latency : Nat)
    (ret_usage ret_cost : Bool) :
    Except PyExc (RawResponse × Option AIUsage × Option AICost) := do
  let openai_params ← prepare_params_for_provider params structured_model
  let response ← call_api_structured_async_validate (transport st.client openai_params)
  pure (process_response costFn response latency model_name ret_usage ret_cost)

/-- `kwargs["messages"] = messages` on a dict: overwrite in place when the
key exists, else append. -/
def dict_set (d : List (String × PValue)) (key : String) (v : PValue) :
    List (String × PValue) :=
  if (dict_lookup d key).isSome then
    d.map (fun kv => if kv.1 = key then (kv.1, v) else kv)
  else d ++ [(key, v)]

/-- `runtime_params.pop("__merge__", {})`. -/
def pop_merge_flags (d : List (String × PValue)) :
    PValue × List (String × PValue) :=
  ((dict_lookup d "__merge__").getD (.vDict []),
   d.filter (fun kv => kv.1 ≠ "__merge__"))

/-- The model name a `run*` method passes as the `model_name` keyword:
`merged_params.model`. -/
def merged_model_name (merged : List (String × PValue)) : String :=
  match (dict_lookup merged "model").getD .vNone with
  | .vStr s => s
  | _ => ""

/-- `BaseLLMClient.run` (providers/base.py, lines 548-584), with the
client state threaded explicitly: `_validate_client` is the only step
that assigns client attributes; everything after it reads them. -/
def run (st : ClientState) (messages : PValue) (kwargs : List (String × PValue))
    (ret_usage ret_cost : Bool)
    (transport : Bool → List (String × PValue) → Except String RawResponse)
    (costFn : String → AIUsage → AICost) (initClient : Bool → Bool) (latency : Nat) :
    ClientState × Except PyExc (RawResponse × Option AIUsage × Option AICost) :=
  let st1 := validate_client st false initClient
  let runtime_params := dict_set kwargs "messages" messages
  let mfs := pop_merge_flags runtime_params
  let merged := merge_parameters st1 mfs.2 mfs.1
  let merged_params := mk_base_llm_call_params merged
  (st1, call_api_sync st1 (merged_model_name merged_params) merged_params
          transport costFn latency ret_usage ret_cost)

/-- `BaseLLMClient.run_async` (providers/base.py, lines 586-622). -/
def run_async (st : ClientState) (messages : PValue) (kwargs : List (String × PValue))
    (ret_usage ret_cost : Bool)
    (transport : Bool → List (String × PValue) → Except String RawResponse)
    (costFn : String → AIUsage → AICost) (initClient : Bool → Bool) (latency : Nat) :
    ClientState × Except PyExc (RawResponse × Option AIUsage × Option AICost) :=
  let st1 := validate_client st true initClient
  let runtime_params := dict_set kwargs "messages" messages
  let mfs := pop_merge_flags runtime_params
  let merged := merge_parameters st1 mfs.2 mfs.1
  let merged_params := mk_base_llm_call_params merged
  (st1, call_api_async st1 (merged_model_name merged_params) merged_params
          transport costFn latency ret_usage ret_cost)

/-- `BaseLLMClient.run_structured` (providers/base.py, lines 624-661). -/
def run_structured (st : ClientState) (structured_model : PValue) (messages : PValue)
    (kwargs : List (String × PValue)) (ret_usage ret_cost : Bool)
    (transport : Bool → List (String × PValue) → Except String RawResponse)
    (costFn : String → AIUsage → AICost) (initClient : Bool → Bool) (latency : Nat) :
    ClientState × Except PyExc (RawResponse × Option AIUsage × Option AICost) :=
  let st1 := validate_client st false initClient
  let runtime_params := dict_set kwargs "messages" messages
  let mfs := pop_merge_flags runtime_params
  let merged := merge_parameters st1 mfs.2 mfs.1
  let merged_params := mk_base_llm_call_params merged
  (st1, call_api_structured st1 (merged_model_name merged_params) structured_model
          merged_params transport costFn latency ret_usage ret_cost)

/-- `BaseLLMClient.run_structured_async` (providers/base.py, lines
663-700). -/
def run_structured_async (st : ClientState) (structured_model : PValue) (messages : PValue)
    (kwargs : List (String × PValue)) (ret_usage ret_cost : Bool)
    (transport : Bool → List (String × PValue) → Except String RawResponse)
    (costFn : String → AIUsage → AICost) (initClient : Bool → Bool) (latency : Nat) :
    ClientState × Except PyExc (RawResponse × Option AIUsage × Option AICost) :=
  let st1 := validate_client st true initClient
  let runtime_params := dict_set kwargs "messages" messages
  let mfs := pop_merge_flags runtime_params
  let merged := merge_parameters st1 mfs.2 mfs.1
  let merged_params := mk_base_llm_call_params merged
  (st1, call_api_structured_async st1 (merged_model_name merged_params) structured_model
          merged_params transport costFn latency ret_usage ret_cost)

/-- The client-held call-parameter defaults that spec section 5 declares
untouched by a call: everything except the transport-mode flag and the
transport handle. -/
def same_defaults (a b : ClientState) : Prop :=
  a.model_name = b.model_name ∧ a.messages = b.messages ∧ a.tools = b.tools ∧
  a.tool_choice = b.tool_choice ∧ a.reasoning_effort = b.reasoning_effort ∧
  a.user = b.user

/-!
# Theorems
-/

/-- `_validate_client` assigns only `self.client` and `self.use_async`. -/
theorem validate_client_same_defaults (st : ClientState) (m : Bool)
    (initClient : Bool → Bool) : same_defaults (validate_client st m initClient) st := by
  unfold validate_client same_defaults
  split
  · exact ⟨rfl, rfl, rfl, rfl, rfl, rfl⟩
  · split
    · exact ⟨rfl, rfl, rfl, rfl, rfl, rfl⟩
    · exact ⟨rfl, rfl, rfl, rfl, rfl, rfl⟩

/-- C1: the claim states that a non-alias input found in some
definition's versioned-id list is returned unchanged and that any other
non-alias input fails with the unknown-model `ValueError`, no other
failure being possible.  On the code both parts fail: the lookup loop
reads `definition["model_names"]` while the generated table keys the list
`"model_ids"`, so every non-alias input - the versioned id
`"gpt-4o-12-17-24"` just as an unknown name - raises
`KeyError("model_names")` on the first loop iteration, contradicting the
function's own docstring ("it is returned unchanged", "Raises:
ValueError"). -/
theorem resolve_model_name_keyerror_on_versioned_id :
    resolve_model_name "gpt-4o-12-17-24" = .error (.keyError "model_names") ∧
    resolve_model_name "totally-unknown-model" = .error (.keyError "model_names") := by
  exact ⟨rfl, rfl⟩

set_option maxHeartbeats 2000000 in
/-- C2: for every alias in `MODEL_DEFINITIONS`, `resolve_model_name`
returns the definition's `most_recent_model`, which belongs to the
alias's versioned-id list and carries the lexicographically-maximal
extracted date tuple of that list; in particular `"gpt-4o"` (ids dated
01-10-24, 01-15-24 and 12-17-24) resolves to the 12-17-24 id. -/
theorem resolve_alias_most_recent :
    (∀ al ∈ MODEL_DEFINITIONS.map Prod.fst,
      resolve_model_name al = .ok (alias_most_recent al) ∧
      alias_most_recent al ∈ alias_model_ids al ∧
      ∀ i ∈ alias_model_ids al,
        date_le (extract_date i al) (extract_date (alias_most_recent al) al) = true) ∧
    resolve_model_name "gpt-4o" = .ok "gpt-4o-12-17-24" ∧
    extract_date "gpt-4o-01-10-24" "gpt-4o" = (2024, 1, 10) ∧
    extract_date "gpt-4o-01-15-24" "gpt-4o" = (2024, 1, 15) ∧
    extract_date "gpt-4o-12-17-24" "gpt-4o" = (2024, 12, 17) := by
  exact ⟨by decide, by decide, by decide, by decide, by decide⟩

/-- Witness for `resolve_alias_most_recent` at the alias `"gpt-4o"` and
the versioned id `"gpt-4o-01-15-24"`. -/
theorem resolve_alias_most_recent_witness :
    resolve_model_name "gpt-4o" = .ok (alias_most_recent "gpt-4o") ∧
    alias_most_recent "gpt-4o" ∈ alias_model_ids "gpt-4o" ∧
    date_le (extract_date "gpt-4o-01-15-24" "gpt-4o")
      (extract_date (alias_most_recent "gpt-4o") "gpt-4o") = true := by
  have h := resolve_alias_most_recent.1 "gpt-4o" (by decide)
  exact ⟨h.1, h.2.1, h.2.2 "gpt-4o-01-15-24" (by decide)⟩

/-- C3: the claim states that on these call paths only
`LLMResponseCompletionError`/`LLMResponseParseError` can surface.  The
transport-wrapping part holds on all four paths (third and fourth
conjuncts show the sync wrapping and the async no-choices case), but in
`_call_api_sync` the no-choices and empty-content branches build their
error message with `f"...{e}"` outside the `except` block where `e` is
unbound, so Python raises `UnboundLocalError` there instead of the
intended `LLMResponseCompletionError` (first two conjuncts): on that path
another exception type escapes, contradicting the intent visible in the
sibling async/structured paths and the spec. -/
theorem call_api_sync_raises_unbound_local :
    call_api_sync_validate (.ok { choices := [], usage := ⟨0, 0, 0, 0⟩ }) =
      .error (.unboundLocalError "e") ∧
    call_api_sync_validate
        (.ok { choices := [⟨⟨some "", none⟩⟩], usage := ⟨0, 0, 0, 0⟩ }) =
      .error (.unboundLocalError "e") ∧
    call_api_sync_validate (.error "connection reset") =
      .error (.llmResponseCompletionError
        "Error during OpenAI API synchronous call: connection reset") ∧
    call_api_async_validate (.ok { choices := [], usage := ⟨0, 0, 0, 0⟩ }) =
      .error (.llmResponseCompletionError "LLM returned no choices in async response") ∧
    call_api_structured_validate (.ok { choices := [], usage := ⟨0, 0, 0, 0⟩ }) =
      .error (.llmResponseParseError "LLM returned no choices in structured response") := by
  exact ⟨rfl, rfl, rfl, rfl, rfl⟩

/-- C8: with neither usage nor cost requested the wrapper returns
`(response, None, None)`; with cost requested but not usage, the cost is
computed from a usage value built from the response's reported token
counts while the returned usage component stays `None`. -/
theorem process_response_usage_cost_flags :
    ∀ (costFn : String → AIUsage → AICost) (response : RawResponse) (latency : Nat)
      (model : String),
      process_response costFn response latency model false false = (response, none, none) ∧
      process_response costFn response latency model false true =
        (response, none, some (costFn model (usage_from_response response latency))) := by
  intro costFn response latency model
  exact ⟨rfl, rfl⟩

/-- C9 counterexample: the claim states that a malformed tool raises the
generic `ValueError` even when the target model does not support tools;
on the code the capability membership check runs first, so a malformed
tool sent with a model outside `FUNCTION_CALL_SUPPORTED_MODELS` raises
`ToolsNotSupportedError`, not `ValueError`. -/
theorem set_tools_capability_checked_first :
    set_tools (.vList [.vTool ⟨none, none⟩]) "gpt-3.5-turbo" =
      .error (.toolsNotSupportedError "gpt-3.5-turbo") := by
  exact rfl

/-- C9 amended: a tool entry lacking a name or a description raises the
generic `ValueError`, but only after the model-capability membership
check passes; for a model that does not support tools,
`ToolsNotSupportedError` is raised regardless of tool well-formedness. -/
theorem set_tools_malformed_after_capability :
    ∀ (ts : List PValue) (model : String),
      (model ∉ FUNCTION_CALL_SUPPORTED_MODELS →
        set_tools (.vList ts) model = .error (.toolsNotSupportedError model)) ∧
      (model ∈ FUNCTION_CALL_SUPPORTED_MODELS →
        ts.any (fun t => ¬ has_attr t "name" ∨ ¬ has_attr t "description") = true →
        set_tools (.vList ts) model =
          .error (.valueError "Tool missing required attributes name and description")) := by
  intro ts model
  constructor
  · intro h
    simp [set_tools, pyIsNone, h]
  · intro h hbad
    unfold set_tools
    rw [if_neg (by simp [pyIsNone]), if_neg (not_not_intro h)]
    exact if_pos hbad

/-- Witness for `set_tools_malformed_after_capability`: a tool with a
name but no description, on a model that supports tools. -/
theorem set_tools_malformed_after_capability_witness :
    set_tools (.vList [.vTool ⟨some "f", none⟩]) "gpt-4o" =
      .error (.valueError "Tool missing required attributes name and description") :=
  (set_tools_malformed_after_capability [.vTool ⟨some "f", none⟩] "gpt-4o").2
    (by decide) (by decide)

/-- C10: every `run`/`run_async`/`run_structured`/`run_structured_async`
invocation leaves the stored defaults (`model_name`, `messages`, `tools`,
`tool_choice`, `reasoning_effort`, `user`) unchanged; the only client
state a call may change is the transport-mode flag and the transport
handle (assigned inside `_validate_client`). -/
theorem run_preserves_client_defaults :
    ∀ (st : ClientState) (sm messages : PValue) (kwargs : List (String × PValue))
      (ru rc : Bool)
      (transport : Bool → List (String × PValue) → Except String RawResponse)
      (costFn : String → AIUsage → AICost) (initClient : Bool → Bool) (latency : Nat),
      same_defaults ((run st messages kwargs ru rc transport costFn initClient latency).1) st ∧
      same_defaults ((run_async st messages kwargs ru rc transport costFn initClient latency).1) st ∧
      same_defaults ((run_structured st sm messages kwargs ru rc transport costFn initClient latency).1) st ∧
      same_defaults ((run_structured_async st sm messages kwargs ru rc transport costFn initClient latency).1) st := by
  intro st sm messages kwargs ru rc transport costFn initClient latency
  exact ⟨validate_client_same_defaults st false initClient,
         validate_client_same_defaults st true initClient,
         validate_client_same_defaults st false initClient,
         validate_client_same_defaults st true initClient⟩

/-- Coercing a list of message objects through `standardize_messages`
returns the same list. -/
theorem standardize_messages_map (l : List Message) :
    standardize_messages (.vList (l.map PValue.vMsg)) = l := by
  induction l with
  | nil => rfl
  | cons a t ih =>
      have ih2 : List.filterMap
          (fun v => match v with | PValue.vMsg m => some m | _ => none)
          (t.map PValue.vMsg) = t := ih
      simp [standardize_messages, List.filterMap_cons, ih2]

/-- A non-empty message list is truthy. -/
theorem pyTruthy_msg_list (l : List Message) (h : l ≠ []) :
    pyTruthy (.vList (l.map PValue.vMsg)) = true := by
  simp [pyTruthy, h]

/-- C4: an empty or absent message input raises the no-messages error
naming the model, for every model; and a standardized list with more than
one system message, more than one developer message, or a system and a
developer message together, raises `InvalidMessageError` - in each case
no normalized list is produced. -/
theorem set_messages_rejects_empty_and_dup_instructions :
    ∀ (model : String) (init_call : Bool) (msgs : List Message),
      set_messages model .vNone init_call = .error (.messagesNotProvidedError model) ∧
      set_messages model (.vList []) init_call = .error (.messagesNotProvidedError model) ∧
      ((1 < (count_message_roles msgs).1 ∨ 1 < (count_message_roles msgs).2 ∨
        (1 ≤ (count_message_roles msgs).1 ∧ 1 ≤ (count_message_roles msgs).2)) →
        ∃ s, set_messages model (.vList (msgs.map PValue.vMsg)) init_call =
          .error (.invalidMessageError s)) := by
  intro model init_call msgs
  refine ⟨rfl, rfl, ?_⟩
  intro h
  have hne : msgs ≠ [] := by
    intro he
    subst he
    simp [count_message_roles] at h
  have hT := pyTruthy_msg_list msgs hne
  by_cases h1 : 1 < (count_message_roles msgs).1
  · refine ⟨"Invalid message role provided. More than one system message provided.", ?_⟩
    simp [set_messages, hT, standardize_messages_map, h1]
  · by_cases h2 : 1 < (count_message_roles msgs).2
    · refine ⟨"Invalid message role provided. More than one developer message provided.", ?_⟩
      simp [set_messages, hT, standardize_messages_map, h1, h2]
    · have h3 : 1 ≤ (count_message_roles msgs).1 ∧ 1 ≤ (count_message_roles msgs).2 := by
        rcases h with h | h | h
        · exact absurd h h1
        · exact absurd h h2
        · exact h
      refine ⟨"Invalid message role provided. Both system and developer messages provided.", ?_⟩
      simp [set_messages, hT, standardize_messages_map, h1, h2, h3.1, h3.2]

/-- Witness for `set_messages_rejects_empty_and_dup_instructions`: two
system messages on `"gpt-4o"`. -/
theorem set_messages_rejects_witness :
    (1 < (count_message_roles [⟨Role.system, "a"⟩, ⟨Role.system, "b"⟩]).1 ∨
     1 < (count_message_roles [⟨Role.system, "a"⟩, ⟨Role.system, "b"⟩]).2 ∨
     (1 ≤ (count_message_roles [⟨Role.system, "a"⟩, ⟨Role.system, "b"⟩]).1 ∧
      1 ≤ (count_message_roles [⟨Role.system, "a"⟩, ⟨Role.system, "b"⟩]).2)) ∧
    ∃ s, set_messages "gpt-4o"
        (.vList ([⟨Role.system, "a"⟩, ⟨Role.system, "b"⟩].map PValue.vMsg)) false =
      .error (.invalidMessageError s) := by
  refine ⟨Or.inl (by decide), ?_⟩
  exact (set_messages_rejects_empty_and_dup_instructions "gpt-4o" false
    [⟨Role.system, "a"⟩, ⟨Role.system, "b"⟩]).2.2 (Or.inl (by decide))

/-- The developer-style and system-style model lists are disjoint. -/
theorem dev_models_not_system :
    ∀ s ∈ DEVELOPER_MESSAGE_SUPPORTED_MODELS, s ∉ SYSTEM_MESSAGE_SUPPORTED_MODELS := by decide

/-- The system-style and developer-style model lists are disjoint. -/
theorem sys_models_not_dev :
    ∀ s ∈ SYSTEM_MESSAGE_SUPPORTED_MODELS, s ∉ DEVELOPER_MESSAGE_SUPPORTED_MODELS := by decide

/-- The user-only and developer-style model lists are disjoint. -/
theorem only_user_models_not_dev :
    ∀ s ∈ ONLY_USER_MESSAGE_SUPPORTED_MODELS, s ∉ DEVELOPER_MESSAGE_SUPPORTED_MODELS := by decide

/-- The user-only and system-style model lists are disjoint. -/
theorem only_user_models_not_sys :
    ∀ s ∈ ONLY_USER_MESSAGE_SUPPORTED_MODELS, s ∉ SYSTEM_MESSAGE_SUPPORTED_MODELS := by decide

/-- `convert_message_roles` leaves a list without instruction-role
messages unchanged. -/
theorem convert_message_roles_noinstr (l : List Message) (t : Role) (model : String)
    (h : ∀ x ∈ l, x.role ≠ Role.system ∧ x.role ≠ Role.developer) :
    convert_message_roles l t model = l := by
  induction l with
  | nil => rfl
  | cons a r ih =>
      have ha := h a (by simp)
      have hr := ih (fun x hx => h x (by simp [hx]))
      simp only [convert_message_roles] at hr ⊢
      simp [ha.1, ha.2, hr]

/-- `convert_message_roles` on a list with exactly one instruction
message rewrites only that message, preserving order and count. -/
theorem convert_message_roles_split (pre post : List Message) (m : Message)
    (t : Role) (model : String)
    (hpre : ∀ x ∈ pre, x.role ≠ Role.system ∧ x.role ≠ Role.developer)
    (hpost : ∀ x ∈ post, x.role ≠ Role.system ∧ x.role ≠ Role.developer)
    (hm : m.role = Role.system ∨ m.role = Role.developer) :
    convert_message_roles (pre ++ m :: post) t model =
      pre ++ { m with role := t } :: post := by
  have h1 := convert_message_roles_noinstr pre t model hpre
  have h2 := convert_message_roles_noinstr post t model hpost
  simp only [convert_message_roles, List.map_append, List.map_cons] at h1 h2 ⊢
  rw [h1, h2, if_pos hm]

/-- System-message count of a list with one candidate instruction
message. -/
theorem count_split_sys (pre post : List Message) (m : Message)
    (hpre : ∀ x ∈ pre, x.role ≠ Role.system ∧ x.role ≠ Role.developer)
    (hpost : ∀ x ∈ post, x.role ≠ Role.system ∧ x.role ≠ Role.developer) :
    (count_message_roles (pre ++ m :: post)).1 =
      if m.role = Role.system then 1 else 0 := by
  have hp : pre.countP (fun x => x.role = Role.system) = 0 :=
    List.countP_eq_zero.mpr (by intro a ha; simpa using (hpre a ha).1)
  have hq : post.countP (fun x => x.role = Role.system) = 0 :=
    List.countP_eq_zero.mpr (by intro a ha; simpa using (hpost a ha).1)
  simp [count_message_roles, List.countP_append, List.countP_cons, hp, hq]

/-- Developer-message count of a list with one candidate instruction
message. -/
theorem count_split_dev (pre post : List Message) (m : Message)
    (hpre : ∀ x ∈ pre, x.role ≠ Role.system ∧ x.role ≠ Role.developer)
    (hpost : ∀ x ∈ post, x.role ≠ Role.system ∧ x.role ≠ Role.developer) :
    (count_message_roles (pre ++ m :: post)).2 =
      if m.role = Role.developer then 1 else 0 := by
  have hp : pre.countP (fun x => x.role = Role.developer) = 0 :=
    List.countP_eq_zero.mpr (by intro a ha; simpa using (hpre a ha).2)
  have hq : post.countP (fun x => x.role = Role.developer) = 0 :=
    List.countP_eq_zero.mpr (by intro a ha; simpa using (hpost a ha).2)
  simp [count_message_roles, List.countP_append, List.countP_cons, hp, hq]

/-- C5: for every model and message list with exactly one instruction
message, the normalizer returns a list of the same length and order in
which only the instruction message may differ and only in its role: a
system message becomes `developer` when the model supports developer-style
but not system-style instructions, `user` when the model is user-only; a
developer message becomes `system` when the model supports system-style
instructions, `user` when user-only; a message whose role the model
already supports is returned unchanged in role and content. -/
theorem set_messages_single_instruction_remap :
    ∀ (model : String) (pre post : List Message) (m : Message) (init_call : Bool),
      (m.role = Role.system ∨ m.role = Role.developer) →
      (∀ x ∈ pre, x.role ≠ Role.system ∧ x.role ≠ Role.developer) →
      (∀ x ∈ post, x.role ≠ Role.system ∧ x.role ≠ Role.developer) →
      ∃ m2 : Message,
        set_messages model (.vList ((pre ++ m :: post).map PValue.vMsg)) init_call =
          .ok (pre ++ m2 :: post) ∧
        m2.content = m.content ∧
        (m.role = Role.system → model ∈ DEVELOPER_MESSAGE_SUPPORTED_MODELS →
          model ∉ SYSTEM_MESSAGE_SUPPORTED_MODELS → m2.role = Role.developer) ∧
        (m.role = Role.system → model ∈ ONLY_USER_MESSAGE_SUPPORTED_MODELS →
          m2.role = Role.user) ∧
        (m.role = Role.developer → model ∈ SYSTEM_MESSAGE_SUPPORTED_MODELS →
          m2.role = Role.system) ∧
        (m.role = Role.developer → model ∈ ONLY_USER_MESSAGE_SUPPORTED_MODELS →
          m2.role = Role.user) ∧
        ((m.role = Role.system ∧ model ∈ SYSTEM_MESSAGE_SUPPORTED_MODELS) ∨
         (m.role = Role.developer ∧ model ∈ DEVELOPER_MESSAGE_SUPPORTED_MODELS) →
          m2 = m) := by
  intro model pre post m init_call hm hpre hpost
  have hne : pre ++ m :: post ≠ [] := by simp
  have hT := pyTruthy_msg_list _ hne
  have hcs := count_split_sys pre post m hpre hpost
  have hcd := count_split_dev pre post m hpre hpost
  rcases hm with hs | hd
  · rw [if_pos hs] at hcs
    rw [if_neg (by simp [hs])] at hcd
    by_cases hD : model ∈ DEVELOPER_MESSAGE_SUPPORTED_MODELS
    · refine ⟨{ m with role := Role.developer }, ?_, rfl, ?_, ?_, ?_, ?_, ?_⟩
      · simp only [set_messages, standardize_messages_map, hT, hcs, hcd]
        simp [hD,
          convert_message_roles_split pre post m Role.developer model hpre hpost (Or.inl hs)]
      · intro _ _ _; rfl
      · intro _ hU; exact absurd hD (only_user_models_not_dev model hU)
      · intro hdv _; simp [hs] at hdv
      · intro hdv _; simp [hs] at hdv
      · intro hsup
        rcases hsup with ⟨_, hS⟩ | ⟨hdv, _⟩
        · exact absurd hD (sys_models_not_dev model hS)
        · simp [hs] at hdv
    · by_cases hU : model ∈ ONLY_USER_MESSAGE_SUPPORTED_MODELS
      · refine ⟨{ m with role := Role.user }, ?_, rfl, ?_, ?_, ?_, ?_, ?_⟩
        · simp only [set_messages, standardize_messages_map, hT, hcs, hcd]
          simp [hD, hU,
            convert_message_roles_split pre post m Role.user model hpre hpost (Or.inl hs)]
        · intro _ hD2 _; exact absurd hD2 hD
        · intro _ _; rfl
        · intro hdv _; simp [hs] at hdv
        · intro hdv _; simp [hs] at hdv
        · intro hsup
          rcases hsup with ⟨_, hS⟩ | ⟨hdv, _⟩
          · exact absurd hS (only_user_models_not_sys model hU)
          · simp [hs] at hdv
      · refine ⟨m, ?_, rfl, ?_, ?_, ?_, ?_, ?_⟩
        · simp only [set_messages, standardize_messages_map, hT, hcs, hcd]
          simp [hD, hU]
        · intro _ hD2 _; exact absurd hD2 hD
        · intro _ hU2; exact absurd hU2 hU
        · intro hdv _; simp [hs] at hdv
        · intro hdv _; simp [hs] at hdv
        · intro _; rfl
  · rw [if_neg (by simp [hd])] at hcs
    rw [if_pos hd] at hcd
    by_cases hS : model ∈ SYSTEM_MESSAGE_SUPPORTED_MODELS
    · refine ⟨{ m with role := Role.system }, ?_, rfl, ?_, ?_, ?_, ?_, ?_⟩
      · simp only [set_messages, standardize_messages_map, hT, hcs, hcd]
        simp [hS,
          convert_message_roles_split pre post m Role.system model hpre hpost (Or.inr hd)]
      · intro hsys _ _; simp [hd] at hsys
      · intro hsys _; simp [hd] at hsys
      · intro _ _; rfl
      · intro _ hU; exact absurd hS (only_user_models_not_sys model hU)
      · intro hsup
        rcases hsup with ⟨hsys, _⟩ | ⟨_, hD2⟩
        · simp [hd] at hsys
        · exact absurd hD2 (sys_models_not_dev model hS)
    · by_cases hU : model ∈ ONLY_USER_MESSAGE_SUPPORTED_MODELS
      · refine ⟨{ m with role := Role.user }, ?_, rfl, ?_, ?_, ?_, ?_, ?_⟩
        · simp only [set_messages, standardize_messages_map, hT, hcs, hcd]
          simp [hS, hU,
            convert_message_roles_split pre post m Role.user model hpre hpost (Or.inr hd)]
        · intro hsys _ _; simp [hd] at hsys
        · intro hsys _; simp [hd] at hsys
        · intro _ hS2; exact absurd hS2 hS
        · intro _ _; rfl
        · intro hsup
          rcases hsup with ⟨hsys, _⟩ | ⟨_, hD2⟩
          · simp [hd] at hsys
          · exact absurd hD2 (only_user_models_not_dev model hU)
      · refine ⟨m, ?_, rfl, ?_, ?_, ?_, ?_, ?_⟩
        · simp only [set_messages, standardize_messages_map, hT, hcs, hcd]
          simp [hS, hU]
        · intro hsys _ _; simp [hd] at hsys
        · intro hsys _; simp [hd] at hsys
        · intro _ hS2; exact absurd hS2 hS
        · intro _ hU2; exact absurd hU2 hU
        · intro _; rfl

/-- Witness for `set_messages_single_instruction_remap`: a system message
followed by a user message, normalized for `"o1"` (a developer-style
model). -/
theorem set_messages_single_instruction_remap_witness :
    ∃ m2 : Message,
      set_messages "o1"
          (.vList ((([] : List Message) ++
            (⟨Role.system, "be brief"⟩ : Message) :: [⟨Role.user, "hi"⟩]).map PValue.vMsg))
          false =
        .ok (([] : List Message) ++ m2 :: [⟨Role.user, "hi"⟩]) ∧
      m2.content = (⟨Role.system, "be brief"⟩ : Message).content ∧
      ((⟨Role.system, "be brief"⟩ : Message).role = Role.system →
        "o1" ∈ DEVELOPER_MESSAGE_SUPPORTED_MODELS →
        "o1" ∉ SYSTEM_MESSAGE_SUPPORTED_MODELS → m2.role = Role.developer) ∧
      ((⟨Role.system, "be brief"⟩ : Message).role = Role.system →
        "o1" ∈ ONLY_USER_MESSAGE_SUPPORTED_MODELS → m2.role = Role.user) ∧
      ((⟨Role.system, "be brief"⟩ : Message).role = Role.developer →
        "o1" ∈ SYSTEM_MESSAGE_SUPPORTED_MODELS → m2.role = Role.system) ∧
      ((⟨Role.system, "be brief"⟩ : Message).role = Role.developer →
        "o1" ∈ ONLY_USER_MESSAGE_SUPPORTED_MODELS → m2.role = Role.user) ∧
      (((⟨Role.system, "be brief"⟩ : Message).role = Role.system ∧
          "o1" ∈ SYSTEM_MESSAGE_SUPPORTED_MODELS) ∨
       ((⟨Role.system, "be brief"⟩ : Message).role = Role.developer ∧
          "o1" ∈ DEVELOPER_MESSAGE_SUPPORTED_MODELS) →
        m2 = (⟨Role.system, "be brief"⟩ : Message)) :=
  set_messages_single_instruction_remap "o1" [] [⟨Role.user, "hi"⟩]
    ⟨Role.system, "be brief"⟩ false (Or.inl rfl) (by simp) (by decide)

/-- The per-field loop body of `_merge_parameters` computes exactly the
spec's effective-value rule. -/
theorem merge_field_value_eq_spec (d r : PValue) (f : Bool) :
    merge_field_value d r f = merge_spec_value d r f := by
  unfold merge_field_value merge_spec_value
  split
  · rename_i h
    cases d <;> cases r <;> simp_all [pyIsNone]
  · rfl

/-- Lookup distributes over dict concatenation, preferring the left
dict. -/
theorem dict_lookup_append (a b : List (String × PValue)) (k : String) :
    dict_lookup (a ++ b) k = (dict_lookup a k).or (dict_lookup b k) := by
  induction a with
  | nil => simp [dict_lookup]
  | cons p rest ih =>
      cases p with
      | mk k1 v1 =>
          by_cases h : k1 = k <;> simp [dict_lookup, h, ih]

/-- Lookup through the runtime pass-through loop: an existing merged key
keeps its value, any other key gets its first runtime occurrence. -/
theorem pass_through_lookup (rl : List (String × PValue)) :
    ∀ (merged : List (String × PValue)) (k : String),
      dict_lookup (pass_through merged rl) k =
        (dict_lookup merged k).or (dict_lookup rl k) := by
  induction rl with
  | nil =>
      intro merged k
      simp [pass_through, dict_lookup]
  | cons p rest ih =>
      intro merged k
      cases p with
      | mk k1 v1 =>
          unfold pass_through
          by_cases h1 : (dict_lookup merged k1).isSome
          · rw [if_pos h1, ih]
            by_cases hk : k1 = k
            · subst hk
              rcases Option.isSome_iff_exists.mp h1 with ⟨v, hv⟩
              simp [dict_lookup, hv]
            · simp [dict_lookup, hk]
          · rw [if_neg h1, ih, dict_lookup_append]
            by_cases hk : k1 = k
            · subst hk
              have hnone : dict_lookup merged k1 = none :=
                Option.not_isSome_iff_eq_none.mp h1
              simp [dict_lookup, hnone]
            · simp [dict_lookup, hk]

/-- Lookup in a dict built from a key list by a value function. -/
theorem dict_lookup_map_keys (g : String → PValue) (l : List String) (k : String) :
    dict_lookup (l.map (fun f => (f, g f))) k = if k ∈ l then some (g k) else none := by
  induction l with
  | nil => simp [dict_lookup]
  | cons a rest ih =>
      by_cases h : a = k
      · subst h
        simp [dict_lookup, ih]
      · simp [dict_lookup, h, ih, Ne.symm h]

/-- Every recognized field of the returned `BaseLLMCallParams` carries
the spec's effective value. -/
theorem merge_parameters_field_lookup (st : ClientState)
    (runtime : List (String × PValue)) (merge_flags : PValue) (field : String)
    (hf : field ∈ base_call_param_fields) :
    dict_lookup (mk_base_llm_call_params (merge_parameters st runtime merge_flags)) field =
      some (merge_spec_value (default_param_value st field)
              ((dict_lookup runtime field).getD .vNone)
              (merge_flag_for merge_flags field)) := by
  simp only [merge_parameters, mk_base_llm_call_params]
  rw [dict_lookup_map_keys, if_pos hf, pass_through_lookup, dict_lookup_map_keys, if_pos hf]
  simp [merge_field_value_eq_spec]

/-- C6: for every recognized call-parameter field the effective value in
the merged `BaseLLMCallParams` follows the spec rule - flag true with both
sides present and of the same container kind combines structurally
(sequence concatenation, mapping union with override precedence), any
other case takes the override if present, else the default, else absent;
and the tools scenario: defaults `[a, b]` with override `[c]` yield
`[a, b, c]` when the tools flag is set and `[c]` when it is not. -/
theorem merge_parameters_effective_value :
    (∀ (st : ClientState) (runtime : List (String × PValue)) (merge_flags : PValue)
       (field : String), field ∈ base_call_param_fields →
       dict_lookup (mk_base_llm_call_params (merge_parameters st runtime merge_flags)) field =
         some (merge_spec_value (default_param_value st field)
                 ((dict_lookup runtime field).getD .vNone)
                 (merge_flag_for merge_flags field))) ∧
    (∀ (st : ClientState) (a b c : PValue), st.tools = .vList [a, b] →
       dict_lookup (mk_base_llm_call_params (merge_parameters st [("tools", .vList [c])]
           (.vDict [("tools", .vBool true)]))) "tools" = some (.vList [a, b, c]) ∧
       dict_lookup (mk_base_llm_call_params (merge_parameters st [("tools", .vList [c])]
           (.vDict []))) "tools" = some (.vList [c])) := by
  constructor
  · exact merge_parameters_field_lookup
  · intro st a b c htools
    constructor
    · rw [merge_parameters_field_lookup st _ _ "tools" (by decide)]
      simp [merge_spec_value, default_param_value, dict_lookup, merge_flag_for,
        pyTruthy, pyIsNone, htools]
    · rw [merge_parameters_field_lookup st _ _ "tools" (by decide)]
      simp [merge_spec_value, default_param_value, dict_lookup, merge_flag_for,
        pyTruthy, pyIsNone, htools]

/-- Witness for `merge_parameters_effective_value` on a concrete client
state with default tools `[t1, t2]` and override `[t3]`. -/
theorem merge_parameters_effective_value_witness :
    dict_lookup (mk_base_llm_call_params (merge_parameters
        ⟨"gpt-4o", .vNone, .vNone, .vList [.vStr "t1", .vStr "t2"], .vNone, .vNone, false, false⟩
        [("tools", .vList [.vStr "t3"])] (.vDict [("tools", .vBool true)]))) "tools" =
      some (.vList [.vStr "t1", .vStr "t2", .vStr "t3"]) :=
  ((merge_parameters_effective_value.2
    ⟨"gpt-4o", .vNone, .vNone, .vList [.vStr "t1", .vStr "t2"], .vNone, .vNone, false, false⟩
    (.vStr "t1") (.vStr "t2") (.vStr "t3") rfl).1)

/-- C7 counterexample: the claim states that an unrecognized runtime key
passes through unchanged into the merged `CallParameters` result returned
by `_merge_parameters`.  The key does reach the intermediate `merged`
dict (second conjunct), but the function returns
`BaseLLMCallParams(**merged)` and pydantic's default configuration
ignores unexpected keyword arguments, so the returned object carries no
`temperature` entry (first conjunct): the claim fails on the function's
result. -/
theorem merge_parameters_extra_key_dropped :
    dict_lookup (mk_base_llm_call_params (merge_parameters
        ⟨"gpt-4o", .vNone, .vNone, .vNone, .vNone, .vNone, false, false⟩
        [("messages", .vList [.vMsg ⟨Role.user, "hi"⟩]), ("temperature", .vStr "high")]
        (.vDict []))) "temperature" = none ∧
    dict_lookup (merge_parameters
        ⟨"gpt-4o", .vNone, .vNone, .vNone, .vNone, .vNone, false, false⟩
        [("messages", .vList [.vMsg ⟨Role.user, "hi"⟩]), ("temperature", .vStr "high")]
        (.vDict [])) "temperature" = some (.vStr "high") := by
  exact ⟨rfl, rfl⟩

/-- C7 amended: an unrecognized runtime-override key is carried unchanged
into the intermediate merged dict assembled by `_merge_parameters`, but
is dropped from the `BaseLLMCallParams` object the method returns,
because pydantic ignores unexpected keyword arguments. -/
theorem merge_parameters_unrecognized_keys :
    ∀ (st : ClientState) (runtime : List (String × PValue)) (merge_flags : PValue)
      (k : String), k ∉ base_call_param_fields →
      dict_lookup (merge_parameters st runtime merge_flags) k = dict_lookup runtime k ∧
      dict_lookup (mk_base_llm_call_params (merge_parameters st runtime merge_flags)) k =
        none := by
  intro st runtime merge_flags k hk
  constructor
  · simp only [merge_parameters]
    rw [pass_through_lookup, dict_lookup_map_keys, if_neg hk]
    rfl
  · simp only [mk_base_llm_call_params]
    rw [dict_lookup_map_keys, if_neg hk]

/-- Witness for `merge_parameters_unrecognized_keys` at the key
`temperature`. -/
theorem merge_parameters_unrecognized_keys_witness :
    dict_lookup (merge_parameters
        ⟨"gpt-4o", .vNone, .vNone, .vNone, .vNone, .vNone, false, false⟩
        [("temperature", .vStr "high")] (.vDict [])) "temperature" =
      dict_lookup [("temperature", PValue.vStr "high")] "temperature" ∧
    dict_lookup (mk_base_llm_call_params (merge_parameters
        ⟨"gpt-4o", .vNone, .vNone, .vNone, .vNone, .vNone, false, false⟩
        [("temperature", .vStr "high")] (.vDict []))) "temperature" = none :=
  merge_parameters_unrecognized_keys
    ⟨"gpt-4o", .vNone, .vNone, .vNone, .vNone, .vNone, false, false⟩
    [("temperature", .vStr "high")] (.vDict []) "temperature" (by decide)
